import Mathlib

/-
Shallow embedding of the Repository Mirror component of the fep-mcp server
(src/repository.ts).  Effectful runtime primitives (Deno filesystem calls and
the es-git clone/fetch/open operations) are modelled as explicit environment
parameters giving the outcome of each external call, and every operation also
returns the list of external actions it performed, in order, so that facts
about side effects (delays, deletions, clone attempts) can be stated.
-/

set_option autoImplicit false

namespace FepMcp

/-- A JavaScript runtime error. The source distinguishes Deno.errors.NotFound
from every other error, so the embedding keeps exactly that distinction.
A thrown `new Error(m)` is `other m`. -/
inductive JsErr where
  | notFound (msg : String)
  | other (msg : String)
deriving DecidableEq, Repr

/-- The `message` property of the error. -/
def JsErr.message : JsErr → String
  | .notFound m => m
  | .other m => m

/-- An opaque es-git repository object, identified by a tag so that distinct
handles can be told apart. -/
structure Repo where
  id : Nat
deriving DecidableEq, Repr

/-- The module-level mutable state of repository.ts: `currentRepo` and
`currentRepoPath`. -/
structure MirrorState where
  currentRepo : Option Repo
  currentRepoPath : Option String
deriving DecidableEq, Repr

/-- src/repository.ts: `const MAX_RETRIES = 3`. -/
def MAX_RETRIES : Nat := 3

/-- src/repository.ts: `const BASE_DELAY_MS = 1000`. -/
def BASE_DELAY_MS : Nat := 1000

/-- src/repository.ts: the fixed remote URL constant. -/
def FEP_REPO_URL : String := "https://codeberg.org/fediverse/fep.git"

/-- External actions performed by the mirror, recorded in order.  A clone
call is recorded together with its outcome because the on-disk effect of a
clone differs between success and failure. -/
inductive Event where
  | makeTempDir (path : String)
  | remove (path : String)
  | cloneOk (path : String) (attempt : Nat)
  | cloneFail (path : String) (attempt : Nat)
  | delayed (ms : Nat)
  | fetchCall (remote : String)
  | openCall (path : String)
  | readCall (path : String)
  | statCall (path : String)
  | readDirCall (path : String)
deriving DecidableEq, Repr

/-- The message of the not-initialized error thrown by refresh, readFile and
listDirectory. -/
def notInitializedMsg : String :=
  "Repository not initialized. Call initializeRepository() first."

/-- Environment for one initializeRepository call: the fresh directory name
returned by Deno.makeTempDir and, for each attempt number, the outcome of
`cloneRepository(FEP_REPO_URL, destPath)` on that attempt. -/
structure InitEnv where
  tempDir : String
  clone : Nat → Except JsErr Repo

/-- Environment for one refreshRepository call: the outcome of
`getRemote("origin")` plus `remote.fetch([])`, and the outcome of
`openRepository(currentRepoPath)`. -/
structure RefreshEnv where
  fetchResult : Except JsErr Unit
  openResult : Except JsErr Repo

/-- The final error thrown by cloneWithRetry when every attempt failed. -/
def cloneExhaustedMsg (lastMsg : String) : String :=
  "Failed to clone FEP repository after " ++ toString MAX_RETRIES ++
    " attempts: " ++ lastMsg

/-- The body of the `for` loop of cloneWithRetry, with `fuel` counting the
loop iterations still allowed (`MAX_RETRIES - attempt + 1`).  On a failure
with `attempt < MAX_RETRIES` the source waits `BASE_DELAY_MS * 2 ^ (attempt
- 1)` milliseconds and then removes the destination (cleanupOldRepo) before
looping; on a failure of the last attempt it throws at once. -/
def cloneLoop (env : Nat → Except JsErr Repo) (destPath : String) :
    Nat → Nat → Option JsErr → List Event × Except JsErr Repo
  | 0, _, lastError =>
      ([], .error (.other (cloneExhaustedMsg
        (match lastError with | some e => e.message | none => "undefined"))))
  | fuel + 1, attempt, _ =>
      match env attempt with
      | .ok repo => ([.cloneOk destPath attempt], .ok repo)
      | .error e =>
          if attempt < MAX_RETRIES then
            let rest := cloneLoop env destPath fuel (attempt + 1) (some e)
            (.cloneFail destPath attempt ::
              .delayed (BASE_DELAY_MS * 2 ^ (attempt - 1)) ::
              .remove destPath :: rest.1, rest.2)
          else
            ([.cloneFail destPath attempt],
              .error (.other (cloneExhaustedMsg e.message)))

/-- src/repository.ts `cloneWithRetry`: the loop starts at attempt 1 with
no recorded last error. -/
def cloneWithRetry (env : Nat → Except JsErr Repo) (destPath : String) :
    List Event × Except JsErr Repo :=
  cloneLoop env destPath MAX_RETRIES 1 none

/-- src/repository.ts `initializeRepository`: clear and delete any previous
working copy, allocate a fresh temporary directory, clone with retry, and
set both state fields on success; a clone failure propagates and leaves both
fields as they were after the initial clearing step. -/
def initializeRepository (env : InitEnv) (st : MirrorState) :
    MirrorState × List Event × Except JsErr String :=
  let cleaned :=
    match st.currentRepoPath with
    | some p => ((⟨none, none⟩ : MirrorState), [Event.remove p])
    | none => (st, [])
  let evs0 := cleaned.2 ++ [Event.makeTempDir env.tempDir]
  let cloned := cloneWithRetry env.clone env.tempDir
  match cloned.2 with
  | .ok repo =>
      (⟨some repo, some env.tempDir⟩, evs0 ++ cloned.1, .ok env.tempDir)
  | .error e => (cleaned.1, evs0 ++ cloned.1, .error e)

/-- src/repository.ts `refreshRepository`: requires both state fields set;
fetches from origin and reopens the repository at the unchanged path.  Any
error inside the try block is rethrown wrapped in a single message; a throw
during fetch or reopen leaves both state fields untouched because the
assignment to `currentRepo` never runs. -/
def refreshRepository (env : RefreshEnv) (st : MirrorState) :
    MirrorState × List Event × Except JsErr Unit :=
  match st.currentRepo, st.currentRepoPath with
  | some _, some path =>
      match env.fetchResult with
      | .error e =>
          (st, [.fetchCall "origin"],
            .error (.other ("Failed to refresh repository: " ++ e.message)))
      | .ok _ =>
          match env.openResult with
          | .ok newRepo =>
              (⟨some newRepo, some path⟩,
                [.fetchCall "origin", .openCall path], .ok ())
          | .error e =>
              (st, [.fetchCall "origin", .openCall path],
                .error (.other ("Failed to refresh repository: " ++ e.message)))
  | _, _ => (st, [], .error (.other notInitializedMsg))

/-- src/repository.ts `readFile`: requires `currentRepoPath`; reads
`currentRepoPath + "/" + relativePath`; maps a NotFound error to a distinct
file-not-found error carrying the relative path and rethrows anything else
unchanged.  `fsRead` is the outcome of Deno.readTextFile on each full path. -/
def readFile (st : MirrorState) (fsRead : String → Except JsErr String)
    (relativePath : String) : List Event × Except JsErr String :=
  match st.currentRepoPath with
  | none => ([], .error (.other notInitializedMsg))
  | some p =>
      let fullPath := p ++ "/" ++ relativePath
      ([.readCall fullPath],
        match fsRead fullPath with
        | .ok content => .ok content
        | .error (.notFound _) =>
            .error (.other ("File not found: " ++ relativePath))
        | .error e => .error e)

/-- src/repository.ts `fileExists`: returns false without touching the
filesystem when `currentRepoPath` is unset, and otherwise probes with
Deno.stat, turning every error into false.  The return type is a plain
Bool because the source catches every exception. -/
def fileExists (st : MirrorState) (fsStat : String → Except JsErr Unit)
    (relativePath : String) : List Event × Bool :=
  match st.currentRepoPath with
  | none => ([], false)
  | some p =>
      let fullPath := p ++ "/" ++ relativePath
      ([.statCall fullPath],
        match fsStat fullPath with
        | .ok _ => true
        | .error _ => false)

/-- src/repository.ts `listDirectory`: requires `currentRepoPath`; collects
the entry names produced by Deno.readDir on the full path, maps NotFound to
a distinct directory-not-found error and rethrows anything else. -/
def listDirectory (st : MirrorState) (fsReadDir : String → Except JsErr (List String))
    (relativePath : String) : List Event × Except JsErr (List String) :=
  match st.currentRepoPath with
  | none => ([], .error (.other notInitializedMsg))
  | some p =>
      let fullPath := p ++ "/" ++ relativePath
      ([.readDirCall fullPath],
        match fsReadDir fullPath with
        | .ok entries => .ok entries
        | .error (.notFound _) =>
            .error (.other ("Directory not found: " ++ relativePath))
        | .error e => .error e)

/-- src/repository.ts `cleanupRepository` (teardown): when a path is set,
best-effort delete it and clear both fields; otherwise do nothing. -/
def cleanupRepository (st : MirrorState) : MirrorState × List Event :=
  match st.currentRepoPath with
  | some p => ((⟨none, none⟩ : MirrorState), [Event.remove p])
  | none => (st, [])

/-- The invariant of the Mirror Handle: the working-copy path and the open
repository handle are set together and cleared together. -/
def stateInvariant (st : MirrorState) : Prop :=
  st.currentRepo.isSome = st.currentRepoPath.isSome

instance (st : MirrorState) : Decidable (stateInvariant st) := by
  unfold stateInvariant; infer_instance

/-- An entry of a concrete filesystem: a regular file with text content, or
a directory with the names of its direct children. -/
inductive FsEntry where
  | file (content : String)
  | dir (names : List String)
deriving DecidableEq, Repr

/-- A concrete filesystem: full paths associated to entries. -/
abbrev Fs := List (String × FsEntry)

/-- Look up a full path in a concrete filesystem. -/
def Fs.find : Fs → String → Option FsEntry
  | [], _ => none
  | (q, e) :: rest, p => if q = p then some e else Fs.find rest p

/-- Deno.readTextFile over a concrete filesystem: the text of a regular
file, a non-NotFound error on a directory, NotFound on an absent path. -/
def denoReadTextFile (fs : Fs) (path : String) : Except JsErr String :=
  match Fs.find fs path with
  | some (.file c) => .ok c
  | some (.dir _) =>
      .error (.other ("Is a directory (os error 21), read " ++ path))
  | none =>
      .error (.notFound ("No such file or directory (os error 2), open " ++ path))

/-- Deno.stat over a concrete filesystem: succeeds on any existing entry,
file or directory alike, and fails with NotFound on an absent path. -/
def denoStat (fs : Fs) (path : String) : Except JsErr Unit :=
  match Fs.find fs path with
  | some _ => .ok ()
  | none =>
      .error (.notFound ("No such file or directory (os error 2), stat " ++ path))

/-- Deno.readDir over a concrete filesystem: the child names of a
directory, a non-NotFound error on a regular file, NotFound otherwise. -/
def denoReadDir (fs : Fs) (path : String) : Except JsErr (List String) :=
  match Fs.find fs path with
  | some (.dir names) => .ok names
  | some (.file _) =>
      .error (.other ("Not a directory (os error 20), readdir " ++ path))
  | none =>
      .error (.notFound ("No such file or directory (os error 2), readdir " ++ path))

/-- Abstract content of a directory created by the mirror: freshly
allocated and empty, left behind by a failed clone attempt (possibly with
partial contents), or holding a completed clone. -/
inductive DirContent where
  | empty
  | incomplete
  | cloned
deriving DecidableEq, Repr

/-- Abstract view of the disk locations the mirror touches. -/
abbrev Disk := List (String × DirContent)

/-- Look up a path on the abstract disk. -/
def Disk.find : Disk → String → Option DirContent
  | [], _ => none
  | (q, c) :: rest, p => if q = p then some c else Disk.find rest p

/-- Remove every binding of a path from the abstract disk. -/
def Disk.del : Disk → String → Disk
  | [], _ => []
  | (q, c) :: rest, p =>
      if q = p then Disk.del rest p else (q, c) :: Disk.del rest p

/-- Bind a path to a content on the abstract disk. -/
def Disk.set (d : Disk) (p : String) (c : DirContent) : Disk :=
  (p, c) :: Disk.del d p

/-- The disk effect of one recorded event: creating a temp directory makes
an empty directory, a recursive remove deletes the path, a successful clone
fills the destination, and a failed clone attempt leaves the destination in
an incomplete state. Reads, stats, fetches, opens and delays do not change
the disk. -/
def applyEvent (d : Disk) : Event → Disk
  | .makeTempDir p => Disk.set d p .empty
  | .remove p => Disk.del d p
  | .cloneOk p _ => Disk.set d p .cloned
  | .cloneFail p _ => Disk.set d p .incomplete
  | _ => d

/-- The disk after a recorded event sequence. -/
def applyEvents (d : Disk) (evs : List Event) : Disk :=
  evs.foldl applyEvent d

/-- The disk location an event writes to, if any. -/
def Event.target : Event → Option String
  | .makeTempDir p => some p
  | .remove p => some p
  | .cloneOk p _ => some p
  | .cloneFail p _ => some p
  | _ => none

/-- The milliseconds slept by an event, zero for everything but a delay. -/
def Event.delayMs : Event → Nat
  | .delayed ms => ms
  | _ => 0

/-- Total backoff slept during a recorded event sequence. -/
def totalDelay (evs : List Event) : Nat :=
  (evs.map Event.delayMs).sum

/-- A concrete initialize environment in which every clone attempt fails
with the same network error. -/
def allFailEnv : InitEnv :=
  ⟨"/tmp/fep-mcp-0", fun _ => .error (.other "connection refused")⟩

/-- A concrete initialize environment in which the first two clone attempts
fail and the third succeeds. -/
def thirdTryEnv : InitEnv :=
  ⟨"/tmp/fep-mcp-a", fun attempt =>
    if attempt = 3 then .ok ⟨7⟩ else .error (.other "timeout")⟩

/-- A concrete initialize environment in which the first clone attempt
succeeds. -/
def firstTryEnvA : InitEnv := ⟨"/tmp/fep-mcp-a", fun _ => .ok ⟨1⟩⟩

/-- A second concrete initialize environment, with a distinct fresh
temporary directory, in which the first clone attempt succeeds. -/
def firstTryEnvB : InitEnv := ⟨"/tmp/fep-mcp-b", fun _ => .ok ⟨2⟩⟩

theorem Disk.find_del_self (d : Disk) (p : String) :
    Disk.find (Disk.del d p) p = none := by
  induction d with
  | nil => rfl
  | cons hd tl ih =>
      obtain ⟨q, c⟩ := hd
      by_cases h : q = p <;> simp [Disk.del, Disk.find, h, ih]

theorem Disk.find_del_ne (d : Disk) {p q : String} (h : q ≠ p) :
    Disk.find (Disk.del d p) q = Disk.find d q := by
  induction d with
  | nil => rfl
  | cons hd tl ih =>
      obtain ⟨r, c⟩ := hd
      by_cases hr : r = p
      · subst hr
        simp [Disk.del, Disk.find, Ne.symm h, ih]
      · simp only [Disk.del, if_neg hr, Disk.find, ih]

theorem Disk.find_set_self (d : Disk) (p : String) (c : DirContent) :
    Disk.find (Disk.set d p c) p = some c := by
  simp [Disk.set, Disk.find]

theorem Disk.find_set_ne (d : Disk) {p q : String} (c : DirContent)
    (h : q ≠ p) : Disk.find (Disk.set d p c) q = Disk.find d q := by
  have : p ≠ q := fun hq => h hq.symm
  simp [Disk.set, Disk.find, this, Disk.find_del_ne d h]

theorem applyEvent_find_ne (d : Disk) (e : Event) {q : String}
    (h : e.target ≠ some q) : Disk.find (applyEvent d e) q = Disk.find d q := by
  cases e with
  | makeTempDir p =>
      have hq : q ≠ p := fun hqp => h (by simp [Event.target, hqp])
      simp [applyEvent, Disk.find_set_ne d _ hq]
  | remove p =>
      have hq : q ≠ p := fun hqp => h (by simp [Event.target, hqp])
      simp [applyEvent, Disk.find_del_ne d hq]
  | cloneOk p a =>
      have hq : q ≠ p := fun hqp => h (by simp [Event.target, hqp])
      simp [applyEvent, Disk.find_set_ne d _ hq]
  | cloneFail p a =>
      have hq : q ≠ p := fun hqp => h (by simp [Event.target, hqp])
      simp [applyEvent, Disk.find_set_ne d _ hq]
  | delayed ms => rfl
  | fetchCall r => rfl
  | openCall p => rfl
  | readCall p => rfl
  | statCall p => rfl
  | readDirCall p => rfl

theorem applyEvents_find_ne (evs : List Event) (d : Disk) {q : String}
    (h : ∀ e ∈ evs, e.target ≠ some q) :
    Disk.find (applyEvents d evs) q = Disk.find d q := by
  induction evs generalizing d with
  | nil => rfl
  | cons e tl ih =>
      have he : e.target ≠ some q := h e (List.mem_cons_self e tl)
      have htl : ∀ x ∈ tl, x.target ≠ some q := fun x hx =>
        h x (List.mem_cons_of_mem e hx)
      simp only [applyEvents, List.foldl_cons]
      rw [show List.foldl applyEvent (applyEvent d e) tl
            = applyEvents (applyEvent d e) tl from rfl,
        ih (applyEvent d e) htl, applyEvent_find_ne d e he]

theorem cloneLoop_target_mem (env : Nat → Except JsErr Repo) (dest : String) :
    ∀ fuel attempt le, ∀ e ∈ (cloneLoop env dest fuel attempt le).1,
      e.target = some dest ∨ e.target = none := by
  intro fuel
  induction fuel with
  | zero =>
      intro attempt le e he
      simp [cloneLoop] at he
  | succ n ih =>
      intro attempt le e he
      cases hc : env attempt with
      | ok r =>
          simp only [cloneLoop, hc, List.mem_singleton] at he
          subst he
          exact Or.inl rfl
      | error er =>
          by_cases hlt : attempt < MAX_RETRIES
          · simp only [cloneLoop, hc, if_pos hlt, List.mem_cons] at he
            rcases he with rfl | rfl | rfl | hmem
            · exact Or.inl rfl
            · exact Or.inr rfl
            · exact Or.inl rfl
            · exact ih (attempt + 1) (some er) e hmem
          · simp only [cloneLoop, hc, if_neg hlt, List.mem_singleton] at he
            subst he
            exact Or.inl rfl

theorem initializeRepository_events (env : InitEnv) (st : MirrorState) :
    (initializeRepository env st).2.1 =
      (match st.currentRepoPath with
        | some q => [Event.remove q]
        | none => []) ++
        Event.makeTempDir env.tempDir :: (cloneWithRetry env.clone env.tempDir).1 := by
  cases hst : st.currentRepoPath <;>
    cases hres : (cloneWithRetry env.clone env.tempDir).2 <;>
      simp [initializeRepository, hst, hres]

theorem initializeRepository_ok_shape (env : InitEnv) (st : MirrorState)
    (p : String) (h : (initializeRepository env st).2.2 = Except.ok p) :
    p = env.tempDir ∧
      ∃ r, (initializeRepository env st).1 = ⟨some r, some env.tempDir⟩ := by
  cases hres : (cloneWithRetry env.clone env.tempDir).2 with
  | ok r =>
      cases hst : st.currentRepoPath <;>
        simp only [initializeRepository, hst, hres] at h ⊢ <;>
          exact ⟨(Except.ok.injEq _ _ ▸ h).symm, r, rfl⟩
  | error e =>
      cases hst : st.currentRepoPath <;>
        simp [initializeRepository, hst, hres] at h

/-- Claim C1, counterexample: when all 3 clone attempts fail, initialize
does NOT delete the clone destination directory before raising.  On a
concrete all-fail run the last recorded external action is the third failed
clone attempt itself — no removal of the destination follows it — and the
destination directory is still present on disk, in the incomplete state the
failed attempt left it in, when the error propagates. -/
theorem claimC1_counterexample :
    (initializeRepository allFailEnv (⟨none, none⟩ : MirrorState)).2.1.getLast? =
        some (.cloneFail "/tmp/fep-mcp-0" 3)
    ∧ Disk.find (applyEvents ([] : Disk)
        (initializeRepository allFailEnv (⟨none, none⟩ : MirrorState)).2.1)
        "/tmp/fep-mcp-0" ≠ none :=
  ⟨rfl, fun hcontra => Option.noConfusion (Eq.trans (Eq.symm rfl) hcontra)⟩

/-- Claim C1, amended: if all 3 clone attempts fail, initialize surfaces an
error whose message includes the attempt count 3 and the last underlying
failure message, and leaves the Mirror Handle UNINITIALIZED (path and repo
handle both cleared); however the clone destination directory is NOT
deleted before raising: the cleanup of a failed attempt runs only before a
retry, so the final failed attempt leaves a residual partially-cloned
directory on disk.  The last recorded action is the third failed clone
attempt, with no removal after it. -/
theorem claimC1_amended (env : InitEnv) (st : MirrorState) (e1 e2 e3 : JsErr)
    (d : Disk)
    (hinv : st.currentRepoPath = none → st.currentRepo = none)
    (h1 : env.clone 1 = .error e1) (h2 : env.clone 2 = .error e2)
    (h3 : env.clone 3 = .error e3) :
    (initializeRepository env st).2.2 =
      .error (.other ("Failed to clone FEP repository after 3 attempts: " ++
        e3.message))
    ∧ (initializeRepository env st).1 = (⟨none, none⟩ : MirrorState)
    ∧ (initializeRepository env st).2.1.getLast? =
        some (.cloneFail env.tempDir 3)
    ∧ Disk.find (applyEvents d (initializeRepository env st).2.1) env.tempDir =
        some .incomplete := by
  obtain ⟨cr, cp⟩ := st
  cases cp with
  | none =>
      have hrep : cr = none := hinv rfl
      subst hrep
      have htr : initializeRepository env (⟨none, none⟩ : MirrorState) =
          ((⟨none, none⟩ : MirrorState),
            [.makeTempDir env.tempDir,
             .cloneFail env.tempDir 1, .delayed 1000, .remove env.tempDir,
             .cloneFail env.tempDir 2, .delayed 2000, .remove env.tempDir,
             .cloneFail env.tempDir 3],
            .error (.other (cloneExhaustedMsg e3.message))) := by
        simp [initializeRepository, cloneWithRetry, cloneLoop, MAX_RETRIES,
          BASE_DELAY_MS, h1, h2, h3]
      refine ⟨by rw [htr]; rfl, by rw [htr], by rw [htr]; rfl, ?_⟩
      rw [htr]
      simp [applyEvents, applyEvent, Disk.find_set_self]
  | some p =>
      have htr : initializeRepository env (⟨cr, some p⟩ : MirrorState) =
          ((⟨none, none⟩ : MirrorState),
            [.remove p, .makeTempDir env.tempDir,
             .cloneFail env.tempDir 1, .delayed 1000, .remove env.tempDir,
             .cloneFail env.tempDir 2, .delayed 2000, .remove env.tempDir,
             .cloneFail env.tempDir 3],
            .error (.other (cloneExhaustedMsg e3.message))) := by
        simp [initializeRepository, cloneWithRetry, cloneLoop, MAX_RETRIES,
          BASE_DELAY_MS, h1, h2, h3]
      refine ⟨by rw [htr]; rfl, by rw [htr], by rw [htr]; rfl, ?_⟩
      rw [htr]
      simp [applyEvents, applyEvent, Disk.find_set_self]

/-- Claim C1, amended, witness: a concrete all-fail run from an
uninitialized handle yields the exhaustion error carrying "3" and the last
failure message, an uninitialized handle, a trace ending in the third
failed attempt, and a residual incomplete destination directory. -/
theorem claimC1_amended_witness :
    (initializeRepository allFailEnv (⟨none, none⟩ : MirrorState)).2.2 =
      .error (.other
        "Failed to clone FEP repository after 3 attempts: connection refused")
    ∧ (initializeRepository allFailEnv (⟨none, none⟩ : MirrorState)).1 =
        (⟨none, none⟩ : MirrorState)
    ∧ (initializeRepository allFailEnv (⟨none, none⟩ : MirrorState)).2.1.getLast? =
        some (.cloneFail "/tmp/fep-mcp-0" 3)
    ∧ Disk.find (applyEvents ([] : Disk)
        (initializeRepository allFailEnv (⟨none, none⟩ : MirrorState)).2.1)
        "/tmp/fep-mcp-0" = some .incomplete :=
  claimC1_amended allFailEnv ⟨none, none⟩ (.other "connection refused")
    (.other "connection refused") (.other "connection refused") []
    (fun _ => rfl) rfl rfl rfl

/-- Claim C2: the clone retry loop makes at most 3 attempts; after failed
attempt n (n < 3) it waits exactly 1000 * 2 ^ (n - 1) milliseconds (1000 ms
after attempt 1, 2000 ms after attempt 2), then deletes the failed attempt
directory, then retries into the same destination path.  An initialize from
an uninitialized handle whose clone fails on attempts 1 and 2 and succeeds
on attempt 3 ends READY at the destination path, its recorded actions being
exactly fail, delay 1000, remove, fail, delay 2000, remove, success — 3000
ms of accumulated backoff — and on disk the destination holds the completed
clone while every other location is untouched, so no residual directory
from the failed attempts remains. -/
theorem claimC2 (env : InitEnv) (st : MirrorState) (e1 e2 : JsErr) (r : Repo)
    (d : Disk) (hst : st.currentRepoPath = none)
    (h1 : env.clone 1 = .error e1) (h2 : env.clone 2 = .error e2)
    (h3 : env.clone 3 = .ok r) :
    initializeRepository env st =
      ((⟨some r, some env.tempDir⟩ : MirrorState),
        [.makeTempDir env.tempDir,
         .cloneFail env.tempDir 1, .delayed 1000, .remove env.tempDir,
         .cloneFail env.tempDir 2, .delayed 2000, .remove env.tempDir,
         .cloneOk env.tempDir 3],
        .ok env.tempDir)
    ∧ totalDelay (initializeRepository env st).2.1 = 3000
    ∧ Disk.find (applyEvents d (initializeRepository env st).2.1) env.tempDir =
        some .cloned
    ∧ ∀ q, q ≠ env.tempDir →
        Disk.find (applyEvents d (initializeRepository env st).2.1) q =
          Disk.find d q := by
  have htr : initializeRepository env st =
      ((⟨some r, some env.tempDir⟩ : MirrorState),
        [.makeTempDir env.tempDir,
         .cloneFail env.tempDir 1, .delayed 1000, .remove env.tempDir,
         .cloneFail env.tempDir 2, .delayed 2000, .remove env.tempDir,
         .cloneOk env.tempDir 3],
        .ok env.tempDir) := by
    simp [initializeRepository, cloneWithRetry, cloneLoop, MAX_RETRIES,
      BASE_DELAY_MS, hst, h1, h2, h3]
  refine ⟨htr, by rw [htr]; simp [totalDelay, Event.delayMs], ?_, ?_⟩
  · rw [htr]
    simp [applyEvents, applyEvent, Disk.find_set_self]
  · intro q hq
    rw [htr]
    refine applyEvents_find_ne _ d ?_
    intro e he
    simp only [List.mem_cons, List.not_mem_nil, or_false] at he
    rcases he with rfl | rfl | rfl | rfl | rfl | rfl | rfl | rfl <;>
      simp [Event.target] <;> exact Ne.symm hq

/-- Claim C2, witness: the concrete third-try environment run from an
uninitialized handle produces exactly the predicted trace and 3000 ms of
backoff. -/
theorem claimC2_witness :
    initializeRepository thirdTryEnv (⟨none, none⟩ : MirrorState) =
      ((⟨some ⟨7⟩, some "/tmp/fep-mcp-a"⟩ : MirrorState),
        [.makeTempDir "/tmp/fep-mcp-a",
         .cloneFail "/tmp/fep-mcp-a" 1, .delayed 1000, .remove "/tmp/fep-mcp-a",
         .cloneFail "/tmp/fep-mcp-a" 2, .delayed 2000, .remove "/tmp/fep-mcp-a",
         .cloneOk "/tmp/fep-mcp-a" 3],
        .ok "/tmp/fep-mcp-a")
    ∧ totalDelay
        (initializeRepository thirdTryEnv (⟨none, none⟩ : MirrorState)).2.1 =
        3000 :=
  ⟨(claimC2 thirdTryEnv ⟨none, none⟩ (.other "timeout") (.other "timeout")
      ⟨7⟩ [] rfl rfl rfl rfl).1,
   (claimC2 thirdTryEnv ⟨none, none⟩ (.other "timeout") (.other "timeout")
      ⟨7⟩ [] rfl rfl rfl rfl).2.1⟩


/-- Claim C3: when refresh fails during the fetch on an initialized (READY)
handle, it raises the wrapped fetch error and leaves the working copy path
and the prior repository handle untouched, so the handle remains READY with
its path unchanged and a subsequent readFile of any previously readable
path still succeeds (the state passed to readFile is identical). -/
theorem claimC3 (env : RefreshEnv) (r : Repo) (p : String) (e : JsErr)
    (hfetch : env.fetchResult = .error e) :
    refreshRepository env ⟨some r, some p⟩ =
      ((⟨some r, some p⟩ : MirrorState), [.fetchCall "origin"],
        .error (.other ("Failed to refresh repository: " ++ e.message)))
    ∧ ∀ (fsRead : String → Except JsErr String) (rel c : String),
        (readFile (⟨some r, some p⟩ : MirrorState) fsRead rel).2 = .ok c →
        (readFile (refreshRepository env ⟨some r, some p⟩).1 fsRead rel).2 =
          .ok c := by
  have h : refreshRepository env ⟨some r, some p⟩ =
      ((⟨some r, some p⟩ : MirrorState), [.fetchCall "origin"],
        .error (.other ("Failed to refresh repository: " ++ e.message))) := by
    simp [refreshRepository, hfetch]
  exact ⟨h, fun fsRead rel c hc => by rw [h]; exact hc⟩

/-- Claim C3, witness: a concrete unreachable-remote refresh on a READY
handle leaves the state unchanged, raises the wrapped error, and a
previously readable file is still readable. -/
theorem claimC3_witness :
    refreshRepository ⟨.error (.other "could not resolve host"), .ok ⟨5⟩⟩
        (⟨some ⟨1⟩, some "/tmp/fep-mcp-a"⟩ : MirrorState) =
      ((⟨some ⟨1⟩, some "/tmp/fep-mcp-a"⟩ : MirrorState), [.fetchCall "origin"],
        .error (.other
          "Failed to refresh repository: could not resolve host"))
    ∧ (readFile
        (refreshRepository ⟨.error (.other "could not resolve host"), .ok ⟨5⟩⟩
          (⟨some ⟨1⟩, some "/tmp/fep-mcp-a"⟩ : MirrorState)).1
        (fun _ => .ok "fep body") "fep/index.md").2 = .ok "fep body" :=
  ⟨(claimC3 ⟨.error (.other "could not resolve host"), .ok ⟨5⟩⟩ ⟨1⟩
      "/tmp/fep-mcp-a" (.other "could not resolve host") rfl).1,
   (claimC3 ⟨.error (.other "could not resolve host"), .ok ⟨5⟩⟩ ⟨1⟩
      "/tmp/fep-mcp-a" (.other "could not resolve host") rfl).2
     (fun _ => .ok "fep body") "fep/index.md" "fep body" rfl⟩

/-- Claim C10: if the fetch succeeds but reopening the repository at the
same path fails, refresh surfaces the same wrapped refresh-failure error
used for fetch failures, and the Mirror Handle keeps the pre-refresh
repository object and the unchanged path: the reopen step is never
partially applied. -/
theorem claimC10 (env : RefreshEnv) (r : Repo) (p : String) (e : JsErr)
    (hfetch : env.fetchResult = .ok ()) (hopen : env.openResult = .error e) :
    refreshRepository env ⟨some r, some p⟩ =
      ((⟨some r, some p⟩ : MirrorState),
        [.fetchCall "origin", .openCall p],
        .error (.other ("Failed to refresh repository: " ++ e.message))) := by
  simp [refreshRepository, hfetch, hopen]

/-- Claim C10, witness: a concrete run with a successful fetch and a failed
reopen keeps the old repository object and path and raises the wrapped
error. -/
theorem claimC10_witness :
    refreshRepository ⟨.ok (), .error (.other "index corrupt")⟩
        (⟨some ⟨1⟩, some "/tmp/fep-mcp-a"⟩ : MirrorState) =
      ((⟨some ⟨1⟩, some "/tmp/fep-mcp-a"⟩ : MirrorState),
        [.fetchCall "origin", .openCall "/tmp/fep-mcp-a"],
        .error (.other "Failed to refresh repository: index corrupt")) :=
  claimC10 ⟨.ok (), .error (.other "index corrupt")⟩ ⟨1⟩ "/tmp/fep-mcp-a"
    (.other "index corrupt") rfl rfl

/-- Claim C4: on an initialized handle, readFile returns exactly the text
on disk for every relative path bound to a file in the concrete filesystem;
for a path absent from the filesystem it fails with the distinct
file-not-found error carrying the relative path; and any non-NotFound I/O
failure is propagated as-is, not converted to a file-not-found error. -/
theorem claimC4 (st : MirrorState) (fs : Fs) (p rel : String)
    (hst : st.currentRepoPath = some p) :
    (∀ c, Fs.find fs (p ++ "/" ++ rel) = some (.file c) →
        (readFile st (denoReadTextFile fs) rel).2 = .ok c)
    ∧ (Fs.find fs (p ++ "/" ++ rel) = none →
        (readFile st (denoReadTextFile fs) rel).2 =
          .error (.other ("File not found: " ++ rel)))
    ∧ (∀ (fsRead : String → Except JsErr String) (m : String),
        fsRead (p ++ "/" ++ rel) = .error (.other m) →
        (readFile st fsRead rel).2 = .error (.other m)) := by
  refine ⟨?_, ?_, ?_⟩
  · intro c hc
    simp [readFile, hst, denoReadTextFile, hc]
  · intro hc
    simp [readFile, hst, denoReadTextFile, hc]
  · intro fsRead m hm
    simp [readFile, hst, hm]

/-- Claim C4, witness: on a concrete working copy, reading a present file
returns its exact text, reading an absent file gives the file-not-found
error carrying the relative path, and a permission error is propagated
as-is. -/
theorem claimC4_witness :
    (readFile (⟨some ⟨1⟩, some "/w"⟩ : MirrorState)
        (denoReadTextFile [("/w/fep/a4ed/fep-a4ed.md", .file "# FEP-a4ed")])
        "fep/a4ed/fep-a4ed.md").2 = .ok "# FEP-a4ed"
    ∧ (readFile (⟨some ⟨1⟩, some "/w"⟩ : MirrorState)
        (denoReadTextFile [("/w/fep/a4ed/fep-a4ed.md", .file "# FEP-a4ed")])
        "missing.md").2 =
        .error (.other "File not found: missing.md")
    ∧ (readFile (⟨some ⟨1⟩, some "/w"⟩ : MirrorState)
        (fun _ => .error (.other "permission denied")) "fep/a4ed/fep-a4ed.md").2 =
        .error (.other "permission denied") :=
  ⟨(claimC4 ⟨some ⟨1⟩, some "/w"⟩
      [("/w/fep/a4ed/fep-a4ed.md", .file "# FEP-a4ed")] "/w"
      "fep/a4ed/fep-a4ed.md" rfl).1 "# FEP-a4ed" rfl,
   (claimC4 ⟨some ⟨1⟩, some "/w"⟩
      [("/w/fep/a4ed/fep-a4ed.md", .file "# FEP-a4ed")] "/w"
      "missing.md" rfl).2.1 rfl,
   (claimC4 ⟨some ⟨1⟩, some "/w"⟩
      [("/w/fep/a4ed/fep-a4ed.md", .file "# FEP-a4ed")] "/w"
      "fep/a4ed/fep-a4ed.md" rfl).2.2
     (fun _ => .error (.other "permission denied")) "permission denied" rfl⟩

/-- Claim C5: readFile, listDirectory and refresh on an uninitialized
handle always fail with the not-initialized error and record no external
action at all, whatever the filesystem and network would have answered;
teardown of a READY handle returns the handle to exactly this uninitialized
state, and teardown of an uninitialized handle is a no-op, so the same
failures occur after any teardown. -/
theorem claimC5 :
    (∀ (fsRead : String → Except JsErr String) (rel : String),
        readFile (⟨none, none⟩ : MirrorState) fsRead rel =
          ([], .error (.other notInitializedMsg)))
    ∧ (∀ (fsReadDir : String → Except JsErr (List String)) (rel : String),
        listDirectory (⟨none, none⟩ : MirrorState) fsReadDir rel =
          ([], .error (.other notInitializedMsg)))
    ∧ (∀ env : RefreshEnv,
        refreshRepository env (⟨none, none⟩ : MirrorState) =
          (⟨none, none⟩, [], .error (.other notInitializedMsg)))
    ∧ (∀ (r : Repo) (q : String),
        cleanupRepository (⟨some r, some q⟩ : MirrorState) =
          (⟨none, none⟩, [.remove q]))
    ∧ cleanupRepository (⟨none, none⟩ : MirrorState) = (⟨none, none⟩, []) :=
  ⟨fun _ _ => rfl, fun _ _ => rfl, fun _ => rfl, fun _ _ => rfl, rfl⟩


/-- Claim C6: fileExists never raises under any handle state or input (its
embedding returns a plain Bool because the source catches every exception):
it returns false for an uninitialized handle without touching the
filesystem, false whenever the existence probe reports any error at all,
and false for any path absent from a concrete filesystem. -/
theorem claimC6 (st : MirrorState) (rel : String) :
    (st.currentRepoPath = none →
        ∀ fsStat : String → Except JsErr Unit,
          fileExists st fsStat rel = ([], false))
    ∧ (∀ (p : String) (fsStat : String → Except JsErr Unit) (e : JsErr),
        st.currentRepoPath = some p →
        fsStat (p ++ "/" ++ rel) = .error e →
        (fileExists st fsStat rel).2 = false)
    ∧ (∀ (p : String) (fs : Fs),
        st.currentRepoPath = some p →
        Fs.find fs (p ++ "/" ++ rel) = none →
        (fileExists st (denoStat fs) rel).2 = false) := by
  refine ⟨?_, ?_, ?_⟩
  · intro h fsStat
    simp [fileExists, h]
  · intro p fsStat e hst he
    simp [fileExists, hst, he]
  · intro p fs hst hf
    simp [fileExists, hst, denoStat, hf]

/-- Claim C6, witness: on an uninitialized handle fileExists answers false
without probing; on a READY handle it answers false both for an I/O error
during the probe and for an absent path. -/
theorem claimC6_witness :
    fileExists (⟨none, none⟩ : MirrorState)
        (fun _ => .ok ()) "fep/a4ed/fep-a4ed.md" = ([], false)
    ∧ (fileExists (⟨some ⟨1⟩, some "/w"⟩ : MirrorState)
        (fun _ => .error (.other "permission denied"))
        "fep/a4ed/fep-a4ed.md").2 = false
    ∧ (fileExists (⟨some ⟨1⟩, some "/w"⟩ : MirrorState)
        (denoStat [("/w/index.json", .file "[]")]) "missing.md").2 = false :=
  ⟨(claimC6 ⟨none, none⟩ "fep/a4ed/fep-a4ed.md").1 rfl (fun _ => .ok ()),
   (claimC6 ⟨some ⟨1⟩, some "/w"⟩ "fep/a4ed/fep-a4ed.md").2.1 "/w"
     (fun _ => .error (.other "permission denied"))
     (.other "permission denied") rfl rfl,
   (claimC6 ⟨some ⟨1⟩, some "/w"⟩ "missing.md").2.2 "/w"
     [("/w/index.json", .file "[]")] rfl rfl⟩

/-- Claim C7: the Mirror Handle invariant — the working-copy path and the
open repository handle are set and cleared together — holds of the initial
uninitialized state and is preserved by initialize (under every
environment), refresh (under every environment) and teardown; readFile,
fileExists and listDirectory take the state as a pure argument and return
no state at all, so they preserve it trivially. -/
theorem claimC7 (st : MirrorState) (h : stateInvariant st) :
    stateInvariant (⟨none, none⟩ : MirrorState)
    ∧ (∀ env : InitEnv, stateInvariant (initializeRepository env st).1)
    ∧ (∀ env : RefreshEnv, stateInvariant (refreshRepository env st).1)
    ∧ stateInvariant (cleanupRepository st).1 := by
  obtain ⟨cr, cp⟩ := st
  refine ⟨rfl, ?_, ?_, ?_⟩
  · intro env
    cases cp with
    | none =>
        cases hres : (cloneWithRetry env.clone env.tempDir).2 with
        | ok r => simp [initializeRepository, hres, stateInvariant]
        | error e =>
            simpa [initializeRepository, hres] using h
    | some q =>
        cases hres : (cloneWithRetry env.clone env.tempDir).2 with
        | ok r => simp [initializeRepository, hres, stateInvariant]
        | error e => simp [initializeRepository, hres, stateInvariant]
  · intro env
    cases cr with
    | none =>
        cases cp with
        | none => exact h
        | some q => exact h
    | some r0 =>
        cases cp with
        | none => exact h
        | some q =>
            cases hf : env.fetchResult with
            | error e => simpa [refreshRepository, hf] using h
            | ok u =>
                cases ho : env.openResult with
                | ok r1 => simp [refreshRepository, hf, ho, stateInvariant]
                | error e => simpa [refreshRepository, hf, ho] using h
  · cases cp with
    | none => exact h
    | some q => simp [cleanupRepository, stateInvariant]

/-- Claim C7, witness: the invariant holds of a concrete READY handle and
is preserved by a failing initialize, a failing refresh and a teardown from
that handle. -/
theorem claimC7_witness :
    stateInvariant (⟨none, none⟩ : MirrorState)
    ∧ stateInvariant
        (initializeRepository allFailEnv
          (⟨some ⟨1⟩, some "/tmp/fep-mcp-a"⟩ : MirrorState)).1
    ∧ stateInvariant
        (refreshRepository ⟨.error (.other "down"), .ok ⟨2⟩⟩
          (⟨some ⟨1⟩, some "/tmp/fep-mcp-a"⟩ : MirrorState)).1
    ∧ stateInvariant
        (cleanupRepository (⟨some ⟨1⟩, some "/tmp/fep-mcp-a"⟩ : MirrorState)).1 :=
  ⟨(claimC7 ⟨some ⟨1⟩, some "/tmp/fep-mcp-a"⟩ rfl).1,
   (claimC7 ⟨some ⟨1⟩, some "/tmp/fep-mcp-a"⟩ rfl).2.1 allFailEnv,
   (claimC7 ⟨some ⟨1⟩, some "/tmp/fep-mcp-a"⟩ rfl).2.2.1
     ⟨.error (.other "down"), .ok ⟨2⟩⟩,
   (claimC7 ⟨some ⟨1⟩, some "/tmp/fep-mcp-a"⟩ rfl).2.2.2⟩

/-- Claim C8: two successive successful initialize calls produce distinct
working-copy paths whenever the second freshly allocated temporary
directory differs from the first (which Deno.makeTempDir guarantees by
unique naming); the second call first recursively deletes the prior working
copy and then creates the new copy in the fresh directory, and after it
returns the first path no longer exists on disk. -/
theorem claimC8 (env1 env2 : InitEnv) (st0 : MirrorState) (d0 : Disk)
    (p1 p2 : String)
    (h1 : (initializeRepository env1 st0).2.2 = Except.ok p1)
    (h2 : (initializeRepository env2 (initializeRepository env1 st0).1).2.2 =
      Except.ok p2)
    (hfresh : env2.tempDir ≠ env1.tempDir) :
    p1 ≠ p2
    ∧ (initializeRepository env2 (initializeRepository env1 st0).1).2.1 =
        Event.remove p1 :: Event.makeTempDir p2 ::
          (cloneWithRetry env2.clone env2.tempDir).1
    ∧ Disk.find
        (applyEvents (applyEvents d0 (initializeRepository env1 st0).2.1)
          (initializeRepository env2 (initializeRepository env1 st0).1).2.1)
        p1 = none := by
  obtain ⟨hp1, r1, hst1⟩ := initializeRepository_ok_shape env1 st0 p1 h1
  obtain ⟨hp2, r2, hst2⟩ :=
    initializeRepository_ok_shape env2 (initializeRepository env1 st0).1 p2 h2
  subst hp1
  subst hp2
  have hne : env1.tempDir ≠ env2.tempDir := fun hx => hfresh hx.symm
  have hev : (initializeRepository env2 (initializeRepository env1 st0).1).2.1 =
      Event.remove env1.tempDir :: Event.makeTempDir env2.tempDir ::
        (cloneWithRetry env2.clone env2.tempDir).1 := by
    rw [hst1, initializeRepository_events]
    simp
  refine ⟨hne, hev, ?_⟩
  rw [hev]
  rw [show ∀ (D : Disk) (a b : Event) (evs : List Event),
        applyEvents D (a :: b :: evs) =
          applyEvents (applyEvent (applyEvent D a) b) evs
      from fun _ _ _ _ => rfl]
  rw [applyEvents_find_ne _ _ ?targets]
  case targets =>
    intro e he
    rcases cloneLoop_target_mem env2.clone env2.tempDir MAX_RETRIES 1 none
        e he with ht | ht <;> rw [ht]
    · exact fun hc => hne (Option.some.inj hc).symm
    · exact fun hc => Option.noConfusion hc
  show Disk.find
      (applyEvent (applyEvent (applyEvents d0 _) (Event.remove env1.tempDir))
        (Event.makeTempDir env2.tempDir)) env1.tempDir = none
  rw [show applyEvent (applyEvent (applyEvents d0
        (initializeRepository env1 st0).2.1) (Event.remove env1.tempDir))
        (Event.makeTempDir env2.tempDir) =
      Disk.set (Disk.del (applyEvents d0
        (initializeRepository env1 st0).2.1) env1.tempDir)
        env2.tempDir DirContent.empty from rfl]
  rw [Disk.find_set_ne _ _ hne]
  exact Disk.find_del_self _ _

/-- Claim C8, witness: two concrete successful initialize calls with
distinct fresh temporary directories yield distinct paths, the second
begins by removing the first working copy, and the first path is absent
from the disk afterwards. -/
theorem claimC8_witness :
    "/tmp/fep-mcp-a" ≠ "/tmp/fep-mcp-b"
    ∧ (initializeRepository firstTryEnvB
        (initializeRepository firstTryEnvA
          (⟨none, none⟩ : MirrorState)).1).2.1 =
        Event.remove "/tmp/fep-mcp-a" :: Event.makeTempDir "/tmp/fep-mcp-b" ::
          (cloneWithRetry firstTryEnvB.clone "/tmp/fep-mcp-b").1
    ∧ Disk.find
        (applyEvents
          (applyEvents ([] : Disk)
            (initializeRepository firstTryEnvA
              (⟨none, none⟩ : MirrorState)).2.1)
          (initializeRepository firstTryEnvB
            (initializeRepository firstTryEnvA
              (⟨none, none⟩ : MirrorState)).1).2.1)
        "/tmp/fep-mcp-a" = none :=
  ⟨(claimC8 firstTryEnvA firstTryEnvB ⟨none, none⟩ [] "/tmp/fep-mcp-a"
      "/tmp/fep-mcp-b" rfl rfl (by decide)).1,
   (claimC8 firstTryEnvA firstTryEnvB ⟨none, none⟩ [] "/tmp/fep-mcp-a"
      "/tmp/fep-mcp-b" rfl rfl (by decide)).2.1,
   (claimC8 firstTryEnvA firstTryEnvB ⟨none, none⟩ [] "/tmp/fep-mcp-a"
      "/tmp/fep-mcp-b" rfl rfl (by decide)).2.2⟩

/-- Claim C9: fileExists answers true for any path bound to an existing
entry of the concrete filesystem, whether it is a regular file or a
directory, because the existence probe (Deno.stat) succeeds on both — so a
caller probing with fileExists cannot distinguish a readable file from a
subdirectory. -/
theorem claimC9 (st : MirrorState) (fs : Fs) (p rel : String)
    (entry : FsEntry) (hst : st.currentRepoPath = some p)
    (hfind : Fs.find fs (p ++ "/" ++ rel) = some entry) :
    (fileExists st (denoStat fs) rel).2 = true := by
  simp [fileExists, hst, denoStat, hfind]

/-- Claim C9, witness: on a concrete filesystem holding a subdirectory and
a regular file, fileExists answers true for both. -/
theorem claimC9_witness :
    (fileExists (⟨some ⟨1⟩, some "/w"⟩ : MirrorState)
        (denoStat [("/w/fep", .dir ["a4ed"]), ("/w/index.json", .file "[]")])
        "fep").2 = true
    ∧ (fileExists (⟨some ⟨1⟩, some "/w"⟩ : MirrorState)
        (denoStat [("/w/fep", .dir ["a4ed"]), ("/w/index.json", .file "[]")])
        "index.json").2 = true :=
  ⟨claimC9 ⟨some ⟨1⟩, some "/w"⟩
      [("/w/fep", .dir ["a4ed"]), ("/w/index.json", .file "[]")] "/w" "fep"
      (.dir ["a4ed"]) rfl rfl,
   claimC9 ⟨some ⟨1⟩, some "/w"⟩
      [("/w/fep", .dir ["a4ed"]), ("/w/index.json", .file "[]")] "/w"
      "index.json" (.file "[]") rfl rfl⟩

end FepMcp
